import Mathlib

/-!
Verification of the host-side tracker of `pico-keyboard` (`src/tracker.py`).

The development shallowly embeds the parts of `tracker.py` the claims are
about: the per-day CSV log (`TimeTracker`), the event-line decoder and the
keymap dispatcher of `main`, the reconnect indicator-resynchronisation
commands, the sleep-inhibitor subprocess handling, and the report duration
and sorting logic of `show_today`.

Modelling conventions:
  * A CSV file's content is the list of its data rows (the constant header
    row `timestamp,label` is implicit: `some []` is a file holding only the
    header, `none` is an absent file).
  * The filesystem is a partial map from filename to content.
  * Wall-clock dates and timestamps are passed in as explicit arguments
    (`today` is the `%y%m%d`-formatted current date, `now` an ISO timestamp
    string); `show_today` arithmetic uses integer-second timestamps.
  * Outbound serial writes (`safe_send`) are collected as the list of
    command strings in the order they are issued; trailing newlines are
    dropped.
  * The `caffeinate` subprocess pool is modelled by the list `live` of
    pids of spawned-and-not-terminated inhibitor processes plus a fresh
    pid counter.
-/

namespace Pico

/-- A CSV data row: (timestamp string, label), from `w.writerow([ts, label])`. -/
abbrev Row := String × String

/-- Filesystem: filename to file content (`none` = file does not exist). -/
abbrev FS := String → Option (List Row)

/-- `get_csv_filename`: `f"times.{today.strftime('%y%m%d')}.csv"`; the
date formatting itself is external, the formatted date is a parameter. -/
def csvFilename (today : String) : String :=
  "times." ++ today ++ ".csv"

/-- In-memory state of `TimeTracker`: `current_task` and `current_csv_file`. -/
structure Tracker where
  currentTask : Option String
  currentCsvFile : String

/-- `TimeTracker._ensure_csv_file`: if the file does not exist, create it
with just the header row (content `[]`); otherwise leave the filesystem
unchanged. -/
def ensureCsvFile (fs : FS) (fname : String) : FS :=
  match fs fname with
  | some _ => fs
  | none => fun f => if f = fname then some [] else fs f

/-- The `for row in reader: last_label = row["label"]` loop of
`TimeTracker._restore_state`: the label of the last data row, if any. -/
def lastLabel (rows : List Row) : Option String :=
  rows.foldl (fun _ r => some r.2) none

/-- The decision of `TimeTracker._restore_state`:
`if last_label and last_label != "STOP": current_task = last_label`.
Python truthiness of a string means non-empty. -/
def restoredTask (rows : List Row) : Option String :=
  match lastLabel rows with
  | some l => if l ≠ "" ∧ l ≠ "STOP" then some l else none
  | none => none

/-- `TimeTracker.__init__`: `_ensure_csv_file` for today then
`_restore_state` (which re-checks existence and reads the file). Returns
the constructed tracker state and the filesystem after construction. -/
def trackerInit (fs : FS) (today : String) : Tracker × FS :=
  let fname := csvFilename today
  let fs1 := ensureCsvFile fs fname
  let task :=
    match fs1 fname with
    | some rows => restoredTask rows
    | none => none
  (⟨task, fname⟩, fs1)

/-- `TimeTracker._check_day_change`: re-resolve today's filename; on a
change, switch `current_csv_file` and ensure the new file exists. -/
def checkDayChange (t : Tracker) (fs : FS) (today : String) : Tracker × FS :=
  let newFile := csvFilename today
  if newFile ≠ t.currentCsvFile then
    ({ t with currentCsvFile := newFile }, ensureCsvFile fs newFile)
  else (t, fs)

/-- Appending one row with `open(fname, "a")` (mode `a` creates an empty
file when absent, without writing a header). -/
def appendRow (fs : FS) (fname : String) (row : Row) : FS :=
  fun f => if f = fname then some (((fs fname).getD []) ++ [row]) else fs f

/-- `TimeTracker.start_task`: `_check_day_change`, set `current_task`,
append `(now, label)` to the current file. -/
def startTask (t : Tracker) (fs : FS) (today now label : String) :
    Tracker × FS :=
  let p := checkDayChange t fs today
  ({ p.1 with currentTask := some label },
   appendRow p.2 p.1.currentCsvFile (now, label))

/-- `TimeTracker.stop_task`: no-op when `current_task is None`; otherwise
`_check_day_change`, append `(now, "STOP")`, clear `current_task`. -/
def stopTask (t : Tracker) (fs : FS) (today now : String) : Tracker × FS :=
  match t.currentTask with
  | none => (t, fs)
  | some _ =>
    let p := checkDayChange t fs today
    ({ p.1 with currentTask := none },
     appendRow p.2 p.1.currentCsvFile (now, "STOP"))

/-! ### `show_today` report derivation -/

/-- A log entry as parsed by `show_today`, with the timestamp as integer
seconds (the code's `datetime` arithmetic `int((end-start).total_seconds())`
is exact integer subtraction at second precision). -/
structure Entry where
  ts : Int
  label : String
deriving DecidableEq

/-- The duration loop of `show_today`: each non-`STOP` entry at index `i`
gets duration `raw[i+1].ts - raw[i].ts`, or `now - raw[i].ts` for the last
entry; `STOP` entries are skipped. Returns the (label, duration) pairs in
file order. -/
def durations (now : Int) : List Entry → List (String × Int)
  | [] => []
  | e :: rest =>
    let endT :=
      match rest with
      | [] => now
      | e2 :: _ => e2.ts
    if e.label = "STOP" then durations now rest
    else (e.label, endT - e.ts) :: durations now rest

/-- `per_label[label] = per_label.get(label, 0) + dur` on an
insertion-ordered association list (Python dict accumulation). -/
def addDur (acc : List (String × Int)) (l : String) (d : Int) :
    List (String × Int) :=
  match acc with
  | [] => [(l, d)]
  | (l2, d2) :: rest =>
    if l2 = l then (l2, d2 + d) :: rest else (l2, d2) :: addDur rest l d

/-- The `per_label` accumulation of `show_today` over the computed
(label, duration) pairs. -/
def perLabel (ds : List (String × Int)) : List (String × Int) :=
  ds.foldl (fun acc p => addDur acc p.1 p.2) []

/-- Modelled from the spec words for comparison with `durations` (the
source loop): pair each entry with the next entry's timestamp (or `now`
for the last entry) and keep the non-`STOP` pairs. -/
def specDurations (now : Int) (raw : List Entry) : List (String × Int) :=
  (raw.zip (raw.tail.map Entry.ts ++ [now])).filterMap
    (fun p => if p.1.label = "STOP" then none else some (p.1.label, p.2 - p.1.ts))

/-! ### `project_sort_key` and the summary sort -/

/-- Numeric value of a digit run, `int(match.group())`. -/
def digitsVal (cs : List Char) : Nat :=
  cs.foldl (fun a c => 10 * a + (c.toNat - 48)) 0

/-- `re.search(r"\d+", label)`: the first maximal digit run in the label,
as a number; `none` when the label contains no digit. -/
def firstNumberAux : List Char → Option Nat
  | [] => none
  | c :: rest =>
    if c.isDigit then some (digitsVal (c :: rest.takeWhile Char.isDigit))
    else firstNumberAux rest

/-- `firstNumberAux` on the characters of a label. -/
def firstNumber (s : String) : Option Nat :=
  firstNumberAux s.data

/-- The sort key returned by `project_sort_key`: Python's `(0, label)` for
labels with no digit, `(1, number)` otherwise. -/
inductive SortKey where
  | noNum (label : String)
  | withNum (n : Nat)

/-- `project_sort_key(item)` on the item's label. -/
def project_sort_key (label : String) : SortKey :=
  match firstNumber label with
  | some n => .withNum n
  | none => .noNum label

/-- Python-style lexicographic `<` on code points. -/
def strLt : List Char → List Char → Bool
  | [], [] => false
  | [], _ :: _ => true
  | _ :: _, [] => false
  | a :: xs, b :: ys =>
    if a.toNat < b.toNat then true
    else if b.toNat < a.toNat then false
    else strLt xs ys

/-- Lexicographic `≤` as the negation of the reversed `<`. -/
def strLe (x y : List Char) : Bool := !(strLt y x)

/-- Python tuple comparison on the keys `(0, label)` / `(1, number)`:
`(0, _) < (1, _)`, labels compare lexicographically, numbers numerically. -/
def keyLe : SortKey → SortKey → Bool
  | .noNum a, .noNum b => strLe a.data b.data
  | .noNum _, .withNum _ => true
  | .withNum _, .noNum _ => false
  | .withNum m, .withNum n => decide (m ≤ n)

/-- `sorted`'s comparison between two labels via `project_sort_key`. -/
def keyLE (a b : String) : Bool :=
  keyLe (project_sort_key a) (project_sort_key b)

/-- One step of a stable insertion: place `x` after every already-placed
label whose key is `≤` the key of `x`. -/
def insertLabel (x : String) : List String → List String
  | [] => [x]
  | y :: ys => if keyLE y x then y :: insertLabel x ys else x :: y :: ys

/-- `sorted(per_label.items(), key=project_sort_key)` restricted to the
label component: a stable sort by `project_sort_key` (left-to-right
insertion keeps equal keys in encounter order, as Python's stable sort
does). -/
def sortLabels (ls : List String) : List String :=
  ls.foldl (fun acc x => insertLabel x acc) []

/-- A label "has a trailing number" exactly when its last character is a
digit (the reading used by the specification's sort description). -/
def hasTrailingNumber (s : String) : Bool :=
  match s.data.getLast? with
  | some c => c.isDigit
  | none => false

/-! ### Event decoding (`main`, lines 540-546) -/

/-- `line.split(":")` on characters: every `:` separates fields, an empty
trailing field is kept (Python `str.split` semantics for a plain
separator). -/
def splitOnColon : List Char → List (List Char)
  | [] => [[]]
  | c :: rest =>
    if c = ':' then [] :: splitOnColon rest
    else
      match splitOnColon rest with
      | [] => [[c]]
      | g :: gs => (c :: g) :: gs

/-- `int(s)` for an already-stripped field: optional sign followed by a
non-empty digit run, `none` models the `ValueError` raised otherwise.
(Python additionally tolerates surrounding whitespace and `_` digit
separators; the serial fields the program parses never contain those.) -/
def pyInt (cs : List Char) : Option Int :=
  match cs with
  | '-' :: rest =>
    if rest ≠ [] ∧ rest.all Char.isDigit then some (-(digitsVal rest : Int))
    else none
  | '+' :: rest =>
    if rest ≠ [] ∧ rest.all Char.isDigit then some ((digitsVal rest : Int))
    else none
  | _ =>
    if cs ≠ [] ∧ cs.all Char.isDigit then some ((digitsVal cs : Int))
    else none

/-- Outcome of handling one stripped input line:
`skipped` — no `BTN:` prefix, the loop `continue`s;
`malformed` — `int(parts[1])` raises `ValueError`, which no enclosing
handler catches (only `SerialException`/`OSError` are caught), so the
process aborts;
`event` — a decoded button event with its long-press flag. -/
inductive LineResult where
  | skipped
  | malformed
  | event (btn : Int) (long : Bool)
deriving DecidableEq

/-- Lines 540-546 of `main`: prefix check, `split(":")`,
`int(parts[1])`, `is_long_press = len(parts) > 2 and parts[2] == "LONG"`. -/
def decodeLine (line : String) : LineResult :=
  if "BTN:".data.isPrefixOf line.data then
    let parts := splitOnColon line.data
    match pyInt (parts.getD 1 []) with
    | none => .malformed
    | some n =>
      .event n (decide (2 < parts.length) && (parts.getD 2 [] == "LONG".data))
  else .skipped

/-! ### Keymap and actions -/

/-- The `"action"` variants appearing in `KEYMAP`'s config dicts. -/
inductive Action where
  | tracking_toggle
  | project (label : String) (color : Nat × Nat × Nat)
  | show_today
  | layer_shift
  | prevent_sleep
deriving DecidableEq

/-- The module-level `KEYMAP` table (default labels, i.e. no
`config.yaml` present): `layer -> button -> config`. -/
def KEYMAP (layer : Nat) (btn : Int) : Option Action :=
  match layer, btn with
  | 0, 1 => some .tracking_toggle
  | 0, 2 => some (.project "Support" (255, 255, 0))
  | 0, 3 => some (.project "Meeting" (255, 100, 0))
  | 0, 4 => some (.project "Project 1" (0, 255, 0))
  | 0, 5 => some (.project "Project 2" (0, 0, 255))
  | 0, 6 => some (.project "Project 3" (255, 0, 255))
  | 0, 7 => some (.project "Project 4" (255, 0, 128))
  | 0, 8 => some .show_today
  | 0, 9 => some .layer_shift
  | 1, 1 => some (.project "Project 5" (128, 255, 0))
  | 1, 2 => some (.project "Project 6" (0, 255, 128))
  | 1, 3 => some (.project "Project 7" (128, 0, 255))
  | 1, 4 => some (.project "Project 8" (255, 128, 0))
  | 1, 5 => some (.project "Project 9" (0, 128, 255))
  | 1, 6 => some (.project "Project 10" (255, 192, 0))
  | 1, 7 => some (.project "Project 11" (192, 0, 255))
  | 1, 8 => some .prevent_sleep
  | 1, 9 => some .layer_shift
  | _, _ => none

/-! ### Host state and the dispatch loop of `main` -/

/-- The mutable state of `main`: the tracker, the `prevent_sleep` flag,
the `caffeinate_proc` handle, the current layer and the
`user_requested_exit` flag.  `aborted` records that an uncaught exception
(e.g. `ValueError` from `int`) escaped the loop and killed the process.
`live` and `nextPid` model the operating system's view: the pids of
inhibitor subprocesses that have been spawned and not terminated, and a
fresh-pid counter. -/
structure HostState where
  tracker : Tracker
  preventSleep : Bool
  caffeinate : Option Nat
  layer : Nat
  userExit : Bool
  aborted : Bool
  live : List Nat
  nextPid : Nat

/-- Python truthiness of `tracker.current_task` (`None` and the empty
string are falsy). -/
def taskTruthy : Option String → Bool
  | none => false
  | some l => !(l == "")

/-- `f"LED:2:{color[0]},{color[1]},{color[2]}"`. -/
def ledCmd (idx : Nat) (c : Nat × Nat × Nat) : String :=
  "LED:" ++ toString idx ++ ":" ++ toString c.1 ++ "," ++ toString c.2.1
    ++ "," ++ toString c.2.2

/-- The action branches of `main` (lines 566-609).  Returns the new host
state, the new filesystem and the serial commands issued, in order. -/
def runAction (s : HostState) (fs : FS) (today now : String) :
    Action → HostState × FS × List String
  | .prevent_sleep =>
    if !s.preventSleep then
      ({ s with preventSleep := true, caffeinate := some s.nextPid,
                live := s.live ++ [s.nextPid], nextPid := s.nextPid + 1 },
       fs, ["LED:1:0,0,255"])
    else
      ({ s with preventSleep := false, caffeinate := none,
                live := match s.caffeinate with
                        | some p => s.live.erase p
                        | none => s.live },
       fs, ["LED:1:0,0,0"])
  | .tracking_toggle =>
    if taskTruthy s.tracker.currentTask then
      let p := stopTask s.tracker fs today now
      ({ s with tracker := p.1 }, p.2, ["LED:STOP", "LED:0:0,0,0", "LED:2:0,0,0"])
    else
      let p := startTask s.tracker fs today now "Allgemein"
      ({ s with tracker := p.1 }, p.2, ["LED:0:0,255,0", "LED:2:0,255,0"])
  | .project label color =>
    let p := startTask s.tracker fs today now label
    ({ s with tracker := p.1 }, p.2, ["LED:STOP", "LED:0:0,255,0", ledCmd 2 color])
  | .show_today => (s, fs, [])
  | .layer_shift =>
    let newLayer := if s.layer = 0 then 1 else 0
    ({ s with layer := newLayer }, fs,
     if newLayer = 1 then ["LED:7:255,255,0"] else ["LED:7:0,0,0"])

/-- Lines 548-609 of `main` for a decoded button event: a long press on
button 9 requests a graceful exit; any other long press is skipped; a
short press is dispatched through `KEYMAP` in the current layer (no
mapping: diagnostic only). -/
def dispatchEvent (s : HostState) (fs : FS) (today now : String)
    (btn : Int) (long : Bool) : HostState × FS × List String :=
  if btn == 9 && long then ({ s with userExit := true }, fs, [])
  else if long then (s, fs, [])
  else
    match KEYMAP s.layer btn with
    | none => (s, fs, [])
    | some a => runAction s fs today now a

/-- One iteration of the event loop on a stripped input line. -/
def stepLine (s : HostState) (fs : FS) (today now line : String) :
    HostState × FS × List String :=
  match decodeLine line with
  | .skipped => (s, fs, [])
  | .malformed => ({ s with aborted := true }, fs, [])
  | .event b l => dispatchEvent s fs today now b l

/-- Lines 516-525 of `main`: on (re)connect, clear all indicators, then
re-assert the tracking, layer and sleep indicators from host state. -/
def reconnectCommands (s : HostState) : List String :=
  ["LED:ALL:0,0,0"]
  ++ (if taskTruthy s.tracker.currentTask then ["LED:0:0,255,0"] else [])
  ++ (if s.layer == 1 then ["LED:7:255,255,0"] else [])
  ++ (if s.preventSleep then ["LED:1:0,0,255"] else [])

/-- An observable event of the session: a received line, or a completed
reconnection (the `SerialException` teardown followed by a successful
re-`connect`, which only re-sends indicator state). -/
inductive Ev where
  | btnLine (line : String)
  | reconnect

/-- An event together with the wall-clock date and time at which the loop
handles it. -/
structure TimedEv where
  ev : Ev
  today : String
  now : String

/-- One loop step on an event. -/
def stepEv (sfs : HostState × FS) (e : TimedEv) :
    HostState × FS × List String :=
  match e.ev with
  | .btnLine line => stepLine sfs.1 sfs.2 e.today e.now line
  | .reconnect => (sfs.1, sfs.2, reconnectCommands sfs.1)

/-- The event loop: process events until exit was requested or the
process aborted. -/
def runEvents : HostState × FS → List TimedEv → HostState × FS
  | sfs, [] => sfs
  | sfs, e :: rest =>
    if sfs.1.userExit || sfs.1.aborted then sfs
    else runEvents ((stepEv sfs e).1, (stepEv sfs e).2.1) rest

/-- The initialisation of `main`: construct the `TimeTracker`, start with
`prevent_sleep = False`, no inhibitor handle, layer 0. -/
def initHost (fs : FS) (today : String) : HostState × FS :=
  let p := trackerInit fs today
  ({ tracker := p.1, preventSleep := false, caffeinate := none, layer := 0,
     userExit := false, aborted := false, live := [], nextPid := 0 }, p.2)

/-! ### Concrete states used by counterexamples and witnesses -/

/-- The empty filesystem. -/
def fs0 : FS := fun _ => none

/-- A freshly initialised host state over an existing empty log. -/
def host0 : HostState :=
  { tracker := ⟨none, "times.240101.csv"⟩, preventSleep := false,
    caffeinate := none, layer := 0, userExit := false, aborted := false,
    live := [], nextPid := 0 }

/-- A host state holding an active task while layer 1 is selected. -/
def hostC1 : HostState :=
  { host0 with tracker := ⟨some "Project 5", "times.240101.csv"⟩, layer := 1 }

/-- A filesystem whose current-day log already holds one task entry. -/
def fsC3 : FS :=
  fun f =>
    if f = "times.240101.csv" then some [("2024-01-01T09:00:00", "Support")]
    else none

/-- A host state with the matching active task restored from `fsC3`. -/
def hostC3 : HostState :=
  { host0 with tracker := ⟨some "Support", "times.240101.csv"⟩ }

/-- A filesystem whose current-day log ends in an empty-string label. -/
def fsEmptyLabel : FS :=
  fun f =>
    if f = "times.240101.csv" then some [("2024-01-01T10:00:00", "")]
    else none

/-- A tracker whose current file is the previous day's log. -/
def tJan1 : Tracker := ⟨none, "times.240101.csv"⟩

/-- The inhibitor-subprocess invariant maintained by `main`: the
`prevent_sleep` flag, the `caffeinate_proc` handle and the set of live
inhibitor subprocesses agree — flag off means no handle and no live
process, flag on means the handle points at the single live process. -/
def SleepInv (s : HostState) : Prop :=
  (s.preventSleep = true → ∃ p, s.caffeinate = some p ∧ s.live = [p])
  ∧ (s.preventSleep = false → s.caffeinate = none ∧ s.live = [])

/-! ## Theorems -/

/-- Claim C10 (confirmed): a decoded long-press event on any button other
than the shift button 9 performs no action at all — host state, the
filesystem and the outbound command list are untouched and no shutdown is
signalled — even when the (layer, button) pair is mapped; a long press on
button 9 only sets the graceful-shutdown flag and never shifts the layer. -/
theorem C10_long_press_frame (s : HostState) (fs : FS) (today now : String)
    (btn : Int) (h : btn ≠ 9) :
    dispatchEvent s fs today now btn true = (s, fs, [])
    ∧ dispatchEvent s fs today now 9 true
        = ({ s with userExit := true }, fs, []) := by
  constructor
  · have hb : (btn == 9) = false := by simpa using h
    simp [dispatchEvent, hb]
  · simp [dispatchEvent]

/-- Witness for C10 at button 5 in the initial state. -/
theorem C10_long_press_frame_witness :
    (5 : Int) ≠ 9
    ∧ dispatchEvent host0 fs0 "240101" "2024-01-01T10:00:00" 5 true
        = (host0, fs0, []) :=
  ⟨by decide,
   (C10_long_press_frame host0 fs0 "240101" "2024-01-01T10:00:00" 5
     (by decide)).1⟩

/-- Claim C2 (code bug): the line `"BTN:abc"` decodes to the `malformed`
outcome, which models the `ValueError` raised by `int("abc")`; the loop
catches only `SerialException`/`OSError`, so the exception escapes `main`
and kills the process rather than dropping the line — contrary to the
specified decode-failure tolerance.  A well-formed line (`"BTN:1"`) leaves
the process alive. -/
theorem C2_malformed_numeric_aborts :
    decodeLine "BTN:abc" = LineResult.malformed
    ∧ (stepLine host0 fs0 "240101" "2024-01-01T10:00:00" "BTN:abc").1.aborted
        = true
    ∧ (stepLine host0 fs0 "240101" "2024-01-01T10:00:00" "BTN:1").1.aborted
        = false := by
  decide

/-- Counterexample to claim C8: constructing the tracker over a filesystem
with no file for today creates today's file (header only, no entries),
before any entry is appended. -/
theorem C8_counterexample :
    fs0 (csvFilename "240101") = none
    ∧ (trackerInit fs0 "240101").2 (csvFilename "240101") = some []
    ∧ (trackerInit fs0 "240101").1.currentTask = none := by
  decide

/-- Claim C8 (amended): the day's file is created eagerly — tracker
construction creates today's file with just the header when it is absent,
preserves its rows when present, touches no other file, and appends no
entry row. -/
theorem C8_eager_creation (fs : FS) (today f : String)
    (h : f ≠ csvFilename today) :
    (trackerInit fs today).2 (csvFilename today)
      = some ((fs (csvFilename today)).getD [])
    ∧ (trackerInit fs today).2 f = fs f
    ∧ (trackerInit fs today).1.currentCsvFile = csvFilename today := by
  unfold trackerInit ensureCsvFile
  cases hc : fs (csvFilename today) with
  | some rows => simp [hc]
  | none => simp [hc, h]

/-- Witness for C8 on the empty filesystem. -/
theorem C8_eager_creation_witness :
    "other.csv" ≠ csvFilename "240101"
    ∧ (trackerInit fs0 "240101").2 (csvFilename "240101")
        = some ((fs0 (csvFilename "240101")).getD []) :=
  ⟨by decide, (C8_eager_creation fs0 "240101" "other.csv" (by decide)).1⟩

/-- Claim C9 (confirmed): a `start_task` call whose re-resolved current
date differs from the tracker's previously used log file writes the new
entry into the new date-keyed file, leaves every other file — in
particular the previous day's — unchanged, with no retroactive STOP, and
switches the tracker to the new file. -/
theorem C9_day_rollover (t : Tracker) (fs : FS) (today now label : String)
    (h : csvFilename today ≠ t.currentCsvFile) :
    (∀ f, f ≠ csvFilename today → (startTask t fs today now label).2 f = fs f)
    ∧ (startTask t fs today now label).2 (csvFilename today)
        = some ((fs (csvFilename today)).getD [] ++ [(now, label)])
    ∧ (startTask t fs today now label).1.currentCsvFile = csvFilename today
    ∧ (startTask t fs today now label).1.currentTask = some label := by
  unfold startTask checkDayChange appendRow ensureCsvFile
  cases hc : fs (csvFilename today) with
  | some rows =>
    refine ⟨?_, ?_, ?_, ?_⟩ <;> simp [h, hc]
    intro f hf
    simp [hf]
  | none =>
    refine ⟨?_, ?_, ?_, ?_⟩ <;> simp [h, hc]
    intro f hf
    simp [hf]

/-- Witness for C9: rollover from the 2024-01-01 file to 2024-01-02. -/
theorem C9_day_rollover_witness :
    csvFilename "240102" ≠ tJan1.currentCsvFile
    ∧ (startTask tJan1 fs0 "240102" "2024-01-02T00:01:00" "Support").2
        (csvFilename "240102")
      = some ((fs0 (csvFilename "240102")).getD []
          ++ [("2024-01-02T00:01:00", "Support")]) :=
  ⟨by decide,
   (C9_day_rollover tJan1 fs0 "240102" "2024-01-02T00:01:00" "Support"
     (by decide)).2.1⟩

/-- Counterexample to claim C3: dispatching `StartProject "Meeting"` while
`"Support"` is active appends only the `"Meeting"` entry — the day's log
ends with labels `Support, Meeting` and contains no `STOP` row at all. -/
theorem C3_counterexample :
    hostC3.tracker.currentTask = some "Support"
    ∧ ((runAction hostC3 fsC3 "240101" "2024-01-01T10:00:00"
          (Action.project "Meeting" (255, 100, 0))).2.1 "times.240101.csv")
        = some [("2024-01-01T09:00:00", "Support"),
                ("2024-01-01T10:00:00", "Meeting")]
    ∧ (((runAction hostC3 fsC3 "240101" "2024-01-01T10:00:00"
          (Action.project "Meeting" (255, 100, 0))).2.1
            "times.240101.csv").getD []).all (fun r => !(r.2 == "STOP"))
        = true := by
  decide

/-- Claim C3 (amended): dispatching `StartProject{label, color}` while a
task is active does not stop it first: no STOP entry is written, exactly
the new label's entry is appended to the day's log, other files are
untouched, and `current_task` becomes the new label (the prior task is
implicitly superseded). -/
theorem C3_start_project_supersedes (s : HostState) (fs : FS)
    (today now label : String) (color : Nat × Nat × Nat) (prior : String)
    (h1 : s.tracker.currentTask = some prior)
    (h2 : s.tracker.currentCsvFile = csvFilename today) :
    (runAction s fs today now (.project label color)).2.1 (csvFilename today)
      = some ((fs (csvFilename today)).getD [] ++ [(now, label)])
    ∧ (∀ f, f ≠ csvFilename today →
        (runAction s fs today now (.project label color)).2.1 f = fs f)
    ∧ (runAction s fs today now (.project label color)).1.tracker.currentTask
        = some label := by
  unfold runAction startTask checkDayChange appendRow
  refine ⟨?_, ?_, ?_⟩ <;> simp [h2]
  intro f hf
  simp [hf]

/-- Witness for C3 with `"Support"` active and `"Meeting"` started. -/
theorem C3_start_project_supersedes_witness :
    hostC3.tracker.currentTask = some "Support"
    ∧ hostC3.tracker.currentCsvFile = csvFilename "240101"
    ∧ (runAction hostC3 fsC3 "240101" "2024-01-01T10:00:00"
         (Action.project "Meeting" (255, 100, 0))).1.tracker.currentTask
        = some "Meeting" :=
  ⟨rfl, by decide,
   (C3_start_project_supersedes hostC3 fsC3 "240101" "2024-01-01T10:00:00"
     "Meeting" (255, 100, 0) "Support" rfl (by decide)).2.2⟩

/-- The `for`-loop accumulator of `_restore_state` computes the label of
the last row. -/
theorem foldl_lastLabel (rows : List Row) :
    ∀ acc : Option String,
      rows.foldl (fun _ r => some r.2) acc
        = Option.orElse (rows.getLast?.map Prod.snd) (fun _ => acc) := by
  induction rows with
  | nil => intro acc; rfl
  | cons r rs ih =>
    intro acc
    rw [List.foldl_cons, ih (some r.2)]
    cases rs with
    | nil => rfl
    | cons r2 rs2 =>
      rw [List.getLast?_cons_cons]
      cases hgl : (r2 :: rs2).getLast? with
      | none => simp at hgl
      | some x => rfl

/-- `lastLabel` is the label of the last row, if any. -/
theorem lastLabel_eq_getLast (rows : List Row) :
    lastLabel rows = rows.getLast?.map Prod.snd := by
  unfold lastLabel
  rw [foldl_lastLabel rows none]
  cases rows.getLast? <;> rfl

/-- Counterexample to claim C4: a current-day log whose single (and last)
entry has the empty-string label — which is not `"STOP"` — is not
restored: Python's truthiness test `if last_label` rejects it and
`current_task` stays unset. -/
theorem C4_counterexample :
    fsEmptyLabel (csvFilename "240101") = some [("2024-01-01T10:00:00", "")]
    ∧ ("" : String) ≠ "STOP"
    ∧ (trackerInit fsEmptyLabel "240101").1.currentTask = none := by
  decide

/-- Claim C4 (amended): for an existing current-day log file, startup
restores `current_task` to the last entry's label exactly when that label
is non-empty and not `"STOP"`, leaves it unset when the label is `"STOP"`
or empty or the file has no entries, and writes nothing — the filesystem
is unchanged. -/
theorem C4_restore_on_startup (fs : FS) (today : String) (rows : List Row)
    (h : fs (csvFilename today) = some rows) :
    (trackerInit fs today).2 = fs
    ∧ (trackerInit fs today).1.currentTask
        = (match rows.getLast? with
           | some r => if r.2 ≠ "" ∧ r.2 ≠ "STOP" then some r.2 else none
           | none => none) := by
  have hr : restoredTask rows
      = (match rows.getLast? with
         | some r => if r.2 ≠ "" ∧ r.2 ≠ "STOP" then some r.2 else none
         | none => none) := by
    unfold restoredTask
    rw [lastLabel_eq_getLast]
    cases rows.getLast? <;> rfl
  unfold trackerInit ensureCsvFile
  simp only [h]
  exact ⟨trivial, hr⟩

/-- Witness for C4 on a log ending in an ordinary task label. -/
theorem C4_restore_on_startup_witness :
    fsC3 (csvFilename "240101") = some [("2024-01-01T09:00:00", "Support")]
    ∧ (trackerInit fsC3 "240101").1.currentTask = some "Support" := by
  refine ⟨by decide, ?_⟩
  have h := (C4_restore_on_startup fsC3 "240101"
    [("2024-01-01T09:00:00", "Support")] (by decide)).2
  simpa using h

/-- Counterexample to claim C1: with a task active and layer 1, the
reconnect resynchronisation sends exactly the clear-all, tracking and
layer commands — no command addresses the project-color indicator
(LED 2), so the project-color indicator is not reconstructed. -/
theorem C1_counterexample :
    taskTruthy hostC1.tracker.currentTask = true
    ∧ hostC1.layer = 1
    ∧ reconnectCommands hostC1
        = ["LED:ALL:0,0,0", "LED:0:0,255,0", "LED:7:255,255,0"]
    ∧ (reconnectCommands hostC1).filter
        (fun c => "LED:2:".data.isPrefixOf c.data) = [] := by
  decide

/-- Claim C1 (amended): on every transition into `Connected`, the first
command clears all indicators, and the re-asserted indicators are exactly
those matching the current tracker, layer and sleep-inhibit state — the
tracking, layer-1 and sleep commands each appear iff the corresponding
state holds; no command re-asserts the project-color indicator (LED 2).
A reconnection step itself never changes host state, so the commands are
the same regardless of how many reconnect attempts preceded success. -/
theorem C1_reconnect_resync (s : HostState) :
    (reconnectCommands s).head? = some "LED:ALL:0,0,0"
    ∧ ("LED:0:0,255,0" ∈ reconnectCommands s
        ↔ taskTruthy s.tracker.currentTask = true)
    ∧ ("LED:7:255,255,0" ∈ reconnectCommands s ↔ s.layer = 1)
    ∧ ("LED:1:0,0,255" ∈ reconnectCommands s ↔ s.preventSleep = true)
    ∧ (reconnectCommands s).filter
        (fun c => "LED:2:".data.isPrefixOf c.data) = []
    ∧ (∀ (fs : FS) (td nw : String),
        (stepEv (s, fs) ⟨Ev.reconnect, td, nw⟩).1 = s
        ∧ (stepEv (s, fs) ⟨Ev.reconnect, td, nw⟩).2.1 = fs) := by
  refine ⟨?_, ?_, ?_, ?_, ?_, fun fs td nw => ⟨rfl, rfl⟩⟩ <;>
    cases h1 : taskTruthy s.tracker.currentTask <;>
    cases h2 : s.layer == 1 <;>
    cases h3 : s.preventSleep <;>
    simp_all [reconnectCommands]

/-- The index-based duration loop of `show_today` agrees with the
specification's pairing of each entry with its successor timestamp. -/
theorem durations_eq_specDurations (now : Int) (raw : List Entry) :
    durations now raw = specDurations now raw := by
  induction raw with
  | nil => rfl
  | cons e rest ih =>
    cases rest with
    | nil =>
      simp only [durations, specDurations, List.tail_cons, List.map_nil,
        List.nil_append, List.zip_cons_cons, List.zip_nil_right,
        List.filterMap_cons, List.filterMap_nil]
      split <;> rfl
    | cons e2 r2 =>
      simp only [durations, specDurations, List.tail_cons, List.map_cons,
        List.cons_append, List.zip_cons_cons, List.filterMap_cons] at ih ⊢
      split
      · exact ih
      · exact congrArg _ ih

/-- No `STOP` row survives into the duration list. -/
theorem durations_no_stop (now : Int) (raw : List Entry) :
    (durations now raw).all (fun p => !(p.1 == "STOP")) = true := by
  induction raw with
  | nil => rfl
  | cons e rest ih =>
    simp only [durations]
    split <;> rename_i hs
    · exact ih
    · have hb : (e.label == "STOP") = false := by
        simpa using hs
      simp [List.all_cons, hb, ih]

/-- Claim C5 (confirmed): `show_today` pairs every non-`STOP` entry with
the next entry's timestamp (or the current time for the last entry),
giving `[(t0,"A"), (t1,"B"), (t1+60,"STOP")]` the durations
`A ↦ t1-t0` and `B ↦ 60`; the per-label accumulation reports exactly
those two rows; `STOP` entries get no duration and no summary row; and
the loop agrees with the specification's next-timestamp pairing on every
entry list. -/
theorem C5_report_durations (now t0 t1 : Int) :
    durations now [⟨t0, "A"⟩, ⟨t1, "B"⟩, ⟨t1 + 60, "STOP"⟩]
      = [("A", t1 - t0), ("B", 60)]
    ∧ perLabel (durations now [⟨t0, "A"⟩, ⟨t1, "B"⟩, ⟨t1 + 60, "STOP"⟩])
        = [("A", t1 - t0), ("B", 60)]
    ∧ (∀ raw : List Entry, durations now raw = specDurations now raw)
    ∧ (∀ raw : List Entry,
        (durations now raw).all (fun p => !(p.1 == "STOP")) = true) := by
  have h60 : t1 + 60 - t1 = 60 := by omega
  have hd : durations now [⟨t0, "A"⟩, ⟨t1, "B"⟩, ⟨t1 + 60, "STOP"⟩]
      = [("A", t1 - t0), ("B", 60)] := by
    simp [durations, h60]
  refine ⟨hd, ?_, durations_eq_specDurations now, durations_no_stop now⟩
  rw [hd]
  simp [perLabel, addDur]

/-- Lexicographic `<` on code points is asymmetric. -/
theorem strLt_asymm (x : List Char) :
    ∀ y, strLt x y = true → strLt y x = false := by
  induction x with
  | nil =>
    intro y h
    cases y with
    | nil => simp [strLt] at h
    | cons b ys => simp [strLt]
  | cons a xs ih =>
    intro y h
    cases y with
    | nil => simp [strLt] at h
    | cons b ys =>
      simp only [strLt] at h ⊢
      by_cases hab : a.toNat < b.toNat
      · have hba : ¬ b.toNat < a.toNat := by omega
        simp [hab, hba]
      · by_cases hba : b.toNat < a.toNat
        · simp [hab, hba] at h
        · simp only [hab, hba, if_false] at h ⊢
          exact ih ys h

/-- The complement of lexicographic `<` is transitive. -/
theorem strLt_le_trans (x : List Char) :
    ∀ y z, strLt y x = false → strLt z y = false → strLt z x = false := by
  induction x with
  | nil =>
    intro y z h1 h2
    cases z with
    | nil => rfl
    | cons c zs => rfl
  | cons a xs ih =>
    intro y z h1 h2
    cases z with
    | nil =>
      cases y with
      | nil => simp [strLt] at h1
      | cons b ys => simp [strLt] at h2
    | cons c zs =>
      cases y with
      | nil => simp [strLt] at h1
      | cons b ys =>
        simp only [strLt] at h1 h2 ⊢
        by_cases hba : b.toNat < a.toNat
        · simp [hba] at h1
        · by_cases hcb : c.toNat < b.toNat
          · simp [hcb] at h2
          · by_cases hca : c.toNat < a.toNat
            · omega
            · by_cases hac : a.toNat < c.toNat
              · simp [hca, hac]
              · have hab : ¬ a.toNat < b.toNat := by omega
                have hbc : ¬ b.toNat < c.toNat := by omega
                simp only [hba, hab, if_false] at h1
                simp only [hcb, hbc, if_false] at h2
                simp only [hca, hac, if_false]
                exact ih ys zs h1 h2

/-- The key comparison is total. -/
theorem keyLe_total (a b : SortKey) : keyLe a b = true ∨ keyLe b a = true := by
  cases a with
  | noNum la =>
    cases b with
    | noNum lb =>
      simp only [keyLe, strLe, Bool.not_eq_true']
      by_cases h : strLt lb.data la.data = true
      · exact Or.inr (strLt_asymm _ _ h)
      · exact Or.inl (Bool.not_eq_true _ ▸ h)
    | withNum n => exact Or.inl rfl
  | withNum m =>
    cases b with
    | noNum lb => exact Or.inr rfl
    | withNum n =>
      rcases Nat.le_total m n with h | h
      · exact Or.inl (by simp [keyLe, h])
      · exact Or.inr (by simp [keyLe, h])

/-- The key comparison is transitive. -/
theorem keyLe_trans (a b c : SortKey) :
    keyLe a b = true → keyLe b c = true → keyLe a c = true := by
  intro h1 h2
  cases a <;> cases b <;> cases c <;>
    simp only [keyLe, strLe, Bool.not_eq_true', decide_eq_true_eq,
      Bool.false_eq_true] at h1 h2 ⊢ <;>
    first
    | trivial
    | exact h1.elim
    | exact h2.elim
    | exact strLt_le_trans _ _ _ h1 h2
    | omega

/-- Totality of the label comparison used by the summary sort. -/
theorem keyLE_total (a b : String) : keyLE a b = true ∨ keyLE b a = true :=
  keyLe_total _ _

/-- Transitivity of the label comparison used by the summary sort. -/
theorem keyLE_trans (a b c : String) :
    keyLE a b = true → keyLE b c = true → keyLE a c = true :=
  keyLe_trans _ _ _

/-- Membership through one insertion step. -/
theorem mem_insertLabel (x z : String) (l : List String) :
    z ∈ insertLabel x l ↔ z = x ∨ z ∈ l := by
  induction l with
  | nil => simp [insertLabel]
  | cons y ys ih =>
    simp only [insertLabel]
    split <;> simp only [List.mem_cons, ih] <;> tauto

/-- Insertion preserves key-sortedness. -/
theorem pairwise_insertLabel (x : String) (l : List String)
    (h : l.Pairwise (fun a b => keyLE a b = true)) :
    (insertLabel x l).Pairwise (fun a b => keyLE a b = true) := by
  induction l with
  | nil => simp [insertLabel]
  | cons y ys ih =>
    rcases List.pairwise_cons.mp h with ⟨hy, hys⟩
    simp only [insertLabel]
    by_cases hc : keyLE y x = true
    · rw [if_pos hc]
      refine List.pairwise_cons.mpr ⟨?_, ih hys⟩
      intro z hz
      rcases (mem_insertLabel x z ys).mp hz with rfl | hzys
      · exact hc
      · exact hy z hzys
    · rw [if_neg hc]
      have hxy : keyLE x y = true := (keyLE_total y x).resolve_left hc
      refine List.pairwise_cons.mpr ⟨?_, h⟩
      intro z hz
      rcases List.mem_cons.mp hz with rfl | hzys
      · exact hxy
      · exact keyLE_trans x y z hxy (hy z hzys)

/-- Insertion is a permutation of consing. -/
theorem insertLabel_perm (x : String) (l : List String) :
    (insertLabel x l).Perm (x :: l) := by
  induction l with
  | nil => simp [insertLabel]
  | cons y ys ih =>
    simp only [insertLabel]
    split
    · exact (ih.cons y).trans (List.Perm.swap x y ys)
    · exact List.Perm.refl _

/-- The insertion fold keeps the accumulated list key-sorted. -/
theorem pairwise_sortFold (ls : List String) :
    ∀ acc : List String, acc.Pairwise (fun a b => keyLE a b = true) →
      (ls.foldl (fun acc x => insertLabel x acc) acc).Pairwise
        (fun a b => keyLE a b = true) := by
  induction ls with
  | nil => intro acc h; exact h
  | cons x xs ih =>
    intro acc h
    exact ih _ (pairwise_insertLabel x acc h)

/-- The insertion fold permutes its inputs. -/
theorem perm_sortFold (ls : List String) :
    ∀ acc : List String,
      (ls.foldl (fun acc x => insertLabel x acc) acc).Perm (ls ++ acc) := by
  induction ls with
  | nil => intro acc; exact List.Perm.refl _
  | cons x xs ih =>
    intro acc
    rw [List.foldl_cons]
    refine (ih (insertLabel x acc)).trans ?_
    exact (List.Perm.append_left xs (insertLabel_perm x acc)).trans
      List.perm_middle

/-- Counterexample to claim C6: `"9a"` has no trailing number while
`"Project 2"` has one, yet the sort places `"Project 2"` first, because
`project_sort_key` extracts the first digit run found anywhere in the
label (`re.search`), not a trailing one. -/
theorem C6_counterexample :
    sortLabels ["9a", "Project 2"] = ["Project 2", "9a"]
    ∧ hasTrailingNumber "9a" = false
    ∧ hasTrailingNumber "Project 2" = true := by
  decide

/-- Claim C6 (amended): the summary is sorted by the first-number-aware
key order — labels containing no digit sort (lexicographically) before
labels containing one, and labels containing digits sort by the first
digit run ascending; the sort permutes the labels, and
`["Project 10", "Project 2", "Support"]` orders as
`["Support", "Project 2", "Project 10"]`. -/
theorem C6_first_number_sort :
    (∀ ls : List String,
       (sortLabels ls).Pairwise (fun a b => keyLE a b = true))
    ∧ (∀ ls : List String, (sortLabels ls).Perm ls)
    ∧ sortLabels ["Project 10", "Project 2", "Support"]
        = ["Support", "Project 2", "Project 10"] :=
  ⟨fun ls => pairwise_sortFold ls [] List.Pairwise.nil,
   fun ls => by simpa using perm_sortFold ls [],
   by decide⟩

/-- Every dispatched action preserves the inhibitor invariant: spawning
happens only with the flag off (hence no live process), and turning the
flag off terminates the single live process. -/
theorem sleepInv_runAction (s : HostState) (fs : FS) (today now : String)
    (a : Action) (h : SleepInv s) : SleepInv (runAction s fs today now a).1 := by
  cases a with
  | tracking_toggle =>
    simp only [runAction]
    split
    · exact h
    · exact h
  | project label color => exact h
  | show_today => exact h
  | layer_shift =>
    simp only [runAction]
    exact h
  | prevent_sleep =>
    simp only [runAction]
    cases hps : s.preventSleep with
    | false =>
      simp only [Bool.not_false, if_true]
      refine ⟨fun _ => ⟨s.nextPid, rfl, ?_⟩, fun hf => by simp at hf⟩
      have hl : s.live = [] := (h.2 hps).2
      simp [hl]
    | true =>
      simp only [Bool.not_true, Bool.false_eq_true, if_false]
      rcases h.1 hps with ⟨p, hc, hl⟩
      refine ⟨fun ht => by simp at ht, fun _ => ⟨rfl, ?_⟩⟩
      show (match s.caffeinate with
            | some q => s.live.erase q
            | none => s.live) = []
      rw [hc, hl]
      simp

/-- Every loop step — received line or completed reconnection — preserves
the inhibitor invariant. -/
theorem sleepInv_stepEv (sfs : HostState × FS) (e : TimedEv)
    (h : SleepInv sfs.1) : SleepInv (stepEv sfs e).1 := by
  obtain ⟨ev, td, nw⟩ := e
  cases ev with
  | reconnect => exact h
  | btnLine line =>
    simp only [stepEv, stepLine]
    cases hd : decodeLine line with
    | skipped => exact h
    | malformed => exact h
    | event b l =>
      simp only [dispatchEvent]
      by_cases h9 : (b == 9 && l) = true
      · simp only [h9, if_true]
        exact h
      · simp only [h9, Bool.false_eq_true, if_false]
        cases l with
        | true => exact h
        | false =>
          simp only [Bool.false_eq_true, if_false]
          cases hk : KEYMAP sfs.1.layer b with
          | none => exact h
          | some a => exact sleepInv_runAction sfs.1 sfs.2 td nw a h

/-- The event loop preserves the inhibitor invariant from any state. -/
theorem sleepInv_runEvents (evs : List TimedEv) :
    ∀ sfs : HostState × FS, SleepInv sfs.1 →
      SleepInv (runEvents sfs evs).1 := by
  induction evs with
  | nil => intro sfs h; exact h
  | cons e rest ih =>
    intro sfs h
    simp only [runEvents]
    split
    · exact h
    · exact ih _ (sleepInv_stepEv sfs e h)

/-- The invariant holds at process start. -/
theorem sleepInv_initHost (fs : FS) (today : String) :
    SleepInv (initHost fs today).1 :=
  ⟨fun ht => by simp [initHost] at ht, fun _ => ⟨rfl, rfl⟩⟩

/-- Claim C7 (confirmed): over every sequence of dispatched events —
button lines (including `ToggleSleepInhibit` presses) interleaved with
any number of reconnections — at most one inhibitor subprocess is live at
any time, and a reconnection step alone changes neither host state nor
filesystem (so it never spawns an inhibitor). -/
theorem C7_single_inhibitor (fs : FS) (today : String) (evs : List TimedEv) :
    (runEvents (initHost fs today) evs).1.live.length ≤ 1
    ∧ (∀ (sfs : HostState × FS) (td nw : String),
        (stepEv sfs ⟨Ev.reconnect, td, nw⟩).1 = sfs.1
        ∧ (stepEv sfs ⟨Ev.reconnect, td, nw⟩).2.1 = sfs.2) := by
  constructor
  · have h := sleepInv_runEvents evs (initHost fs today)
      (sleepInv_initHost fs today)
    cases hps : (runEvents (initHost fs today) evs).1.preventSleep with
    | false =>
      rw [(h.2 hps).2]
      simp
    | true =>
      rcases h.1 hps with ⟨p, hc, hl⟩
      rw [hl]
      simp
  · intro sfs td nw
    exact ⟨rfl, rfl⟩

end Pico
